import Mathlib

/-!
Shallow embedding of `allauth_2fa/views.py` (django-allauth-2fa).

The repository contributes five request handlers on top of Django, allauth and
django-otp: `TwoFactorAuthenticate`, `TwoFactorSetup`, `TwoFactorRemove`,
`TwoFactorBackupTokens` and `QRCodeGeneratorView`.  The persisted state they
touch (TOTP devices, static backup tokens) is modelled as an explicit `DB`
record; a request is a record of the fields the handlers read; each handler is
a pure function `Request → DB → Outcome` returning the response (or the Python
exception it raises), the updated database and the user logged in during the
request, if any.
-/

namespace Allauth2FA

/-- A framework user account: primary key and username. -/
structure User where
  id : Nat
  username : String
  deriving Repr, DecidableEq

/-- A django-otp `TOTPDevice` row as the views use it: owning user, confirmed
flag, binary secret (a byte list) and the digits setting. -/
structure TOTPDevice where
  id : Nat
  user_id : Nat
  confirmed : Bool
  bin_key : List Nat
  digits : Nat
  deriving Repr, DecidableEq

/-- A django-otp `StaticDevice` row with its `StaticToken` set inlined as the
list of token strings. -/
structure StaticDevice where
  user_id : Nat
  name : String
  token_set : List String
  deriving Repr, DecidableEq

/-- The persisted state the views touch.  `nextId` is the fresh-value source
standing for the plugin's random key/token generation (each create consumes
it); `other` stands for every persisted entity this repository neither defines
nor touches, so that frame claims can be stated about it. -/
structure DB where
  users : List User
  totpDevices : List TOTPDevice
  staticDevices : List StaticDevice
  nextId : Nat
  other : Nat
  deriving Repr, DecidableEq

/-- HTTP methods the handlers distinguish. -/
inductive Method
  | get
  | post
  deriving Repr, DecidableEq

/-- The request fields the handlers read.  `user` is `none` for an anonymous
request; `session_2fa_user_id` is the session's `allauth_2fa_user_id` key;
`token` is the submitted form code; `site_name` is `get_current_site(request).name`;
`login_redirect_url` is `get_login_redirect_url(request)`. -/
structure Request where
  method : Method
  user : Option User
  session_2fa_user_id : Option Nat
  token : String
  full_path : String
  site_name : String
  login_redirect_url : String
  deriving Repr, DecidableEq

/-- The responses the handlers return. -/
inductive Response
  | redirect (url : String)
  | redirectToLogin (next_url : String)
  | formPage (template : String)
  | backupPage (tokens : List String)
  | svgQr (otpauth_url : String)
  | methodNotAllowed
  deriving Repr, DecidableEq

/-- The Python exceptions the handlers can raise. -/
inductive PyError
  | http404
  | noneAttrError
  | doesNotExist
  deriving Repr, DecidableEq

deriving instance DecidableEq for Except

/-- Result of dispatching one request: the response or the exception raised,
the database afterwards, and the user id logged in during the request (the
`adapter.login` call in `TwoFactorAuthenticate.form_valid`), if any. -/
structure Outcome where
  response : Except PyError Response
  db : DB
  loggedIn : Option Nat
  deriving Repr, DecidableEq

/-! ## `base64.b32encode` and `urllib.parse` quoting, as used by the QR view -/

/-- The RFC 4648 base32 alphabet. -/
def b32alphabet : List Char := "ABCDEFGHIJKLMNOPQRSTUVWXYZ234567".toList

/-- The base32 digit for a 5-bit value. -/
def b32char (n : Nat) : Char := b32alphabet.getD n 'A'

/-- Encode one 5-byte quantum into eight base32 digits. -/
def b32quantum (b0 b1 b2 b3 b4 : Nat) : List Char :=
  let x := b0 % 256 * 2 ^ 32 + b1 % 256 * 2 ^ 24 + b2 % 256 * 2 ^ 16 +
    b3 % 256 * 2 ^ 8 + b4 % 256
  [b32char (x / 2 ^ 35 % 32), b32char (x / 2 ^ 30 % 32), b32char (x / 2 ^ 25 % 32),
    b32char (x / 2 ^ 20 % 32), b32char (x / 2 ^ 15 % 32), b32char (x / 2 ^ 10 % 32),
    b32char (x / 2 ^ 5 % 32), b32char (x % 32)]

/-- Python's `base64.b32encode` on a byte list, as a character list: full quanta encode
to eight digits, a trailing partial quantum is zero-padded and the unused
digits are replaced by `=` padding. -/
def b32encodeList : List Nat → List Char
  | [] => []
  | [b0] => (b32quantum b0 0 0 0 0).take 2 ++ "======".toList
  | [b0, b1] => (b32quantum b0 b1 0 0 0).take 4 ++ "====".toList
  | [b0, b1, b2] => (b32quantum b0 b1 b2 0 0).take 5 ++ "===".toList
  | [b0, b1, b2, b3] => (b32quantum b0 b1 b2 b3 0).take 7 ++ "=".toList
  | b0 :: b1 :: b2 :: b3 :: b4 :: rest => b32quantum b0 b1 b2 b3 b4 ++ b32encodeList rest

/-- Python's `base64.b32encode(bs).decode('utf-8')`. -/
def b32encode (bs : List Nat) : String := String.mk (b32encodeList bs)

/-- The characters `urllib.parse` never percent-encodes: ASCII letters,
digits, and `_.-~`. -/
def isAlwaysSafe (c : Char) : Bool :=
  (65 ≤ c.toNat && c.toNat ≤ 90) || (97 ≤ c.toNat && c.toNat ≤ 122) ||
    (48 ≤ c.toNat && c.toNat ≤ 57) || c == '_' || c == '.' || c == '-' || c == '~'

/-- The UTF-8 bytes of a code point. -/
def utf8Bytes (c : Nat) : List Nat :=
  if c < 128 then [c]
  else if c < 2048 then [192 + c / 64, 128 + c % 64]
  else if c < 65536 then [224 + c / 4096, 128 + c / 64 % 64, 128 + c % 64]
  else [240 + c / 262144, 128 + c / 4096 % 64, 128 + c / 64 % 64, 128 + c % 64]

/-- An uppercase hexadecimal digit. -/
def hexDigit (n : Nat) : Char := "0123456789ABCDEF".toList.getD n '0'

/-- Percent-encoding of one byte as `%XX`. -/
def percentByte (b : Nat) : String :=
  String.mk ['%', hexDigit (b / 16 % 16), hexDigit (b % 16)]

/-- One character under `urllib.parse.quote` with the given extra safe
characters: kept verbatim when always-safe or safe, otherwise each UTF-8 byte
is percent-encoded. -/
def quoteChar (safe : List Char) (c : Char) : String :=
  if isAlwaysSafe c || safe.contains c then String.mk [c]
  else String.join ((utf8Bytes c.toNat).map percentByte)

/-- Python's `urllib.parse.quote(s)` with the default `safe='/'`. -/
def quote (s : String) : String := String.join (s.toList.map (quoteChar ['/']))

/-- Python's `urllib.parse.quote_plus(s)` with `safe=''`: like `quote` with no safe
characters, but a space becomes `+`. -/
def quote_plus (s : String) : String :=
  String.join (s.toList.map (fun c => if c == ' ' then "+" else quoteChar [] c))

/-- Python's `urllib.parse.urlencode` on a sequence of pairs: `quote_plus` each key and
value, join each pair with `=` and the pairs with `&`. -/
def urlencode : List (String × String) → String
  | [] => ""
  | [p] => quote_plus p.1 ++ "=" ++ quote_plus p.2
  | p :: rest => quote_plus p.1 ++ "=" ++ quote_plus p.2 ++ "&" ++ urlencode rest

/-! ## The django-otp plugin operations the views call -/

/-- Django's `user.totpdevice_set.filter(confirmed=True).exists()`. -/
def totpConfirmedExists (db : DB) (uid : Nat) : Bool :=
  db.totpDevices.any (fun d => d.user_id == uid && d.confirmed)

/-- Django's `user.totpdevice_set.exists()`. -/
def totpAnyExists (db : DB) (uid : Nat) : Bool :=
  db.totpDevices.any (fun d => d.user_id == uid)

/-- Django's `user.totpdevice_set.filter(confirmed=False).delete()`: every unconfirmed
device of the user is removed, the rest of the table is untouched. -/
def totpUnconfirmedDelete (db : DB) (uid : Nat) : DB :=
  { db with totpDevices :=
      db.totpDevices.filter (fun d => !(d.user_id == uid && !d.confirmed)) }

/-- Django's `user.totpdevice_set.all().delete()`: every device of the user is removed. -/
def totpAllDelete (db : DB) (uid : Nat) : DB :=
  { db with totpDevices := db.totpDevices.filter (fun d => !(d.user_id == uid)) }

/-- The device row `TOTPDevice.objects.create(user=..., confirmed=False)`
appends, with the plugin's freshly generated random key (drawn from the
fresh-value source) and the default digits setting of 6. -/
def freshTotpDevice (n : Nat) (uid : Nat) : TOTPDevice :=
  { id := n, user_id := uid, confirmed := false, bin_key := [n % 256, (n / 256) % 256], digits := 6 }

/-- Django's `TOTPDevice.objects.create(user=..., confirmed=False)`. -/
def totpCreateUnconfirmed (db : DB) (uid : Nat) : DB :=
  { db with totpDevices := db.totpDevices ++ [freshTotpDevice db.nextId uid],
            nextId := db.nextId + 1 }

/-- Django's `user.totpdevice_set.filter(confirmed=False).first()`. -/
def totpFirstUnconfirmed (db : DB) (uid : Nat) : Option TOTPDevice :=
  (db.totpDevices.filter (fun d => d.user_id == uid && !d.confirmed)).head?

/-- Django's `user.staticdevice_set.get_or_create(name='backup')`: the existing device,
or a newly created one with an empty token set. -/
def staticGetOrCreate (db : DB) (uid : Nat) (nm : String) : StaticDevice × DB :=
  match db.staticDevices.find? (fun s => s.user_id == uid && s.name == nm) with
  | some s => (s, db)
  | none =>
    let s : StaticDevice := { user_id := uid, name := nm, token_set := [] }
    (s, { db with staticDevices := db.staticDevices ++ [s] })

/-- Django's `static_device.token_set.all().delete()` for the device keyed by user and
name. -/
def staticTokenDeleteAll (db : DB) (uid : Nat) (nm : String) : DB :=
  let f := fun (s : StaticDevice) =>
    if s.user_id == uid && s.name == nm then { s with token_set := [] } else s
  { db with staticDevices := db.staticDevices.map f }

/-- The token string `StaticToken.random_token()` returns, drawn from the
fresh-value source. -/
def randomToken (n : Nat) : String := "token" ++ toString n

/-- Django's `static_device.token_set.create(token=StaticToken.random_token())` for the
device keyed by user and name. -/
def staticTokenCreate (db : DB) (uid : Nat) (nm : String) : DB :=
  let f := fun (s : StaticDevice) =>
    if s.user_id == uid && s.name == nm then
      { s with token_set := s.token_set ++ [randomToken db.nextId] }
    else s
  { db with staticDevices := db.staticDevices.map f, nextId := db.nextId + 1 }

/-- Django's `get_user_model().objects.get(id=user_id)`. -/
def userGet (db : DB) (uid : Nat) : Option User :=
  db.users.find? (fun u => u.id == uid)

/-- The tokens the user's `backup` static device holds in a database (empty
when the device does not exist). -/
def backupTokensOf (db : DB) (uid : Nat) : List String :=
  match db.staticDevices.find? (fun s => s.user_id == uid && s.name == "backup") with
  | some s => s.token_set
  | none => []

/-! ## The form classes (forms.py is not under src/) -/

/-- Modelled from the spec: the form classes (`TOTPAuthenticateForm`,
`TOTPDeviceForm`, `TOTPDeviceRemoveForm`) live in `allauth_2fa/forms.py`,
which is not under src/.  The views only branch on whether `form.is_valid()`
succeeded, so the three validators are abstracted as boolean functions of the
database, the user id and the submitted code. -/
structure Forms where
  authValid : DB → Nat → String → Bool
  setupValid : DB → Nat → String → Bool
  removeValid : DB → Nat → String → Bool

/-- Modelled from the spec: `TOTPDeviceForm.save` (forms.py is not under
src/).  Per the view's comment "Confirm the device." and the spec's glossary
("Device confirmation: the state transition marking a newly enrolled TOTP
credential as verified and active"), it marks the user's unconfirmed
device(s) as confirmed. -/
def TOTPDeviceForm_save (db : DB) (uid : Nat) : DB :=
  let f := fun (d : TOTPDevice) =>
    if d.user_id == uid && !d.confirmed then { d with confirmed := true } else d
  { db with totpDevices := db.totpDevices.map f }

/-- Modelled from the spec: `TOTPDeviceRemoveForm.save` (forms.py is not
under src/).  The remove route disables two-factor authentication, deleting
the user's TOTP devices through the plugin's delete operation. -/
def TOTPDeviceRemoveForm_save (db : DB) (uid : Nat) : DB :=
  totpAllDelete db uid

/-! ## The five request handlers of `views.py` -/

/-- View `TwoFactorAuthenticate`: `dispatch` redirects to the login page when the
session does not hold the `allauth_2fa_user_id` of a paused login; otherwise
`get_form_kwargs` looks the session user up, a GET renders the form, and a
POST runs `form_valid` (complete the interrupted login and redirect) or
`form_invalid` (re-render the form). -/
def TwoFactorAuthenticate (fs : Forms) (req : Request) (db : DB) : Outcome :=
  match req.session_2fa_user_id with
  | none => { response := .ok (.redirect "account_login"), db := db, loggedIn := none }
  | some uid =>
    match userGet db uid with
    | none => { response := .error .doesNotExist, db := db, loggedIn := none }
    | some u =>
      match req.method with
      | .get =>
        { response := .ok (.formPage "allauth_2fa/authenticate.html"), db := db, loggedIn := none }
      | .post =>
        if fs.authValid db u.id req.token then
          { response := .ok (.redirect req.login_redirect_url), db := db, loggedIn := some u.id }
        else
          { response := .ok (.formPage "allauth_2fa/authenticate.html"), db := db, loggedIn := none }

/-- Helper `TwoFactorSetup._new_device`: replace any unconfirmed TOTP devices of the
user with a single new unconfirmed one. -/
def new_device (db : DB) (uid : Nat) : DB :=
  totpCreateUnconfirmed (totpUnconfirmedDelete db uid) uid

/-- View `TwoFactorSetup`: `dispatch` sends anonymous users to the login page and
users with a confirmed device to the backup-tokens page; a GET regenerates the
unconfirmed device and renders the form; a POST confirms the device on a valid
code (`form.save()`, then redirect to `success_url`) and regenerates the
device and re-renders the form on an invalid one. -/
def TwoFactorSetup (fs : Forms) (req : Request) (db : DB) : Outcome :=
  match req.user with
  | none => { response := .ok (.redirectToLogin req.full_path), db := db, loggedIn := none }
  | some u =>
    if totpConfirmedExists db u.id then
      { response := .ok (.redirect "two-factor-backup-tokens"), db := db, loggedIn := none }
    else
      match req.method with
      | .get =>
        { response := .ok (.formPage "allauth_2fa/setup.html"), db := new_device db u.id,
          loggedIn := none }
      | .post =>
        if fs.setupValid db u.id req.token then
          { response := .ok (.redirect "two-factor-backup-tokens"),
            db := TOTPDeviceForm_save db u.id, loggedIn := none }
        else
          { response := .ok (.formPage "allauth_2fa/setup.html"), db := new_device db u.id,
            loggedIn := none }

/-- View `TwoFactorRemove`: `dispatch` sends anonymous users to the login page and
users with no device to the setup page; a GET renders the removal form; a POST
runs `form.save()` and redirects to `success_url` on a valid code, and
re-renders the form otherwise. -/
def TwoFactorRemove (fs : Forms) (req : Request) (db : DB) : Outcome :=
  match req.user with
  | none => { response := .ok (.redirectToLogin req.full_path), db := db, loggedIn := none }
  | some u =>
    if totpAnyExists db u.id then
      match req.method with
      | .get => { response := .ok (.formPage "allauth_2fa/remove.html"), db := db, loggedIn := none }
      | .post =>
        if fs.removeValid db u.id req.token then
          { response := .ok (.redirect "two-factor-setup"),
            db := TOTPDeviceRemoveForm_save db u.id, loggedIn := none }
        else
          { response := .ok (.formPage "allauth_2fa/remove.html"), db := db, loggedIn := none }
    else
      { response := .ok (.redirect "two-factor-setup"), db := db, loggedIn := none }

/-- View `TwoFactorBackupTokens`: `dispatch` sends anonymous users to the login
page; `get_context_data` get-or-creates the `backup` static device and shows
its tokens; `post` get-or-creates the device, deletes all its tokens, creates
three fresh random ones, then returns `self.get(...)`. -/
def TwoFactorBackupTokens (req : Request) (db : DB) : Outcome :=
  match req.user with
  | none => { response := .ok (.redirectToLogin req.full_path), db := db, loggedIn := none }
  | some u =>
    match req.method with
    | .get =>
      let s := (staticGetOrCreate db u.id "backup").1
      let db1 := (staticGetOrCreate db u.id "backup").2
      { response := .ok (.backupPage s.token_set), db := db1, loggedIn := none }
    | .post =>
      let db1 := (staticGetOrCreate db u.id "backup").2
      let db2 := staticTokenDeleteAll db1 u.id "backup"
      let db3 := staticTokenCreate db2 u.id "backup"
      let db4 := staticTokenCreate db3 u.id "backup"
      let db5 := staticTokenCreate db4 u.id "backup"
      let s := (staticGetOrCreate db5 u.id "backup").1
      let db6 := (staticGetOrCreate db5 u.id "backup").2
      { response := .ok (.backupPage s.token_set), db := db6, loggedIn := none }

/-- View `QRCodeGeneratorView`: only GET is allowed (`http_method_names`);
anonymous users get `Http404`; otherwise the first unconfirmed TOTP device's
key is base32-encoded into the `otpauth://` enrollment URI and rendered as an
SVG QR code.  When the user has no unconfirmed device, `filter(...).first()`
is `None` and `device.bin_key` raises an attribute error. -/
def QRCodeGeneratorView (req : Request) (db : DB) : Outcome :=
  match req.method with
  | .post => { response := .ok .methodNotAllowed, db := db, loggedIn := none }
  | .get =>
    match req.user with
    | none => { response := .error .http404, db := db, loggedIn := none }
    | some u =>
      match totpFirstUnconfirmed db u.id with
      | none => { response := .error .noneAttrError, db := db, loggedIn := none }
      | some device =>
        let secret_key := b32encode device.bin_key
        let issuer := req.site_name
        let otpauth_url := "otpauth://totp/" ++ quote (issuer ++ ": " ++ u.username) ++ "?" ++
          urlencode [("secret", secret_key), ("digits", toString device.digits), ("issuer", issuer)]
        { response := .ok (.svgQr otpauth_url), db := db, loggedIn := none }

/-- The five views `urls.py` routes to. -/
inductive View
  | authenticate
  | setup
  | remove
  | backupTokens
  | qrCode
  deriving Repr, DecidableEq

/-- Dispatch one request to one of the repository's views. -/
def handle (fs : Forms) : View → Request → DB → Outcome
  | .authenticate => TwoFactorAuthenticate fs
  | .setup => TwoFactorSetup fs
  | .remove => TwoFactorRemove fs
  | .backupTokens => TwoFactorBackupTokens
  | .qrCode => QRCodeGeneratorView

/-! ## The plugin's public mutation operations, as an operation language -/

/-- The persisted-state mutations of the one-time-password plugin's public
API that this repository performs: create, filtered delete, get-or-create on
the device/token models, plus the device-confirmation save delegated to
`TOTPDeviceForm.save`. -/
inductive OTPOp
  | totpCreate (uid : Nat)
  | totpDeleteUnconfirmed (uid : Nat)
  | totpDeleteAll (uid : Nat)
  | totpConfirm (uid : Nat)
  | staticGetOrCreateOp (uid : Nat) (nm : String)
  | tokenDeleteAll (uid : Nat) (nm : String)
  | tokenCreate (uid : Nat) (nm : String)
  deriving Repr, DecidableEq

/-- The database transition of one plugin operation. -/
def OTPOp.apply (op : OTPOp) (db : DB) : DB :=
  match op with
  | .totpCreate uid => totpCreateUnconfirmed db uid
  | .totpDeleteUnconfirmed uid => totpUnconfirmedDelete db uid
  | .totpDeleteAll uid => totpAllDelete db uid
  | .totpConfirm uid => TOTPDeviceForm_save db uid
  | .staticGetOrCreateOp uid nm => (staticGetOrCreate db uid nm).2
  | .tokenDeleteAll uid nm => staticTokenDeleteAll db uid nm
  | .tokenCreate uid nm => staticTokenCreate db uid nm

/-- Apply a sequence of plugin operations in order. -/
def applyOps (ops : List OTPOp) (db : DB) : DB :=
  ops.foldl (fun db op => op.apply db) db

/-! ## Concrete fixtures -/

/-- Forms fixture in which every submitted code fails validation. -/
def fsInvalid : Forms :=
  { authValid := fun _ _ _ => false, setupValid := fun _ _ _ => false,
    removeValid := fun _ _ _ => false }

/-- Forms fixture in which every submitted code passes validation. -/
def fsValid : Forms :=
  { authValid := fun _ _ _ => true, setupValid := fun _ _ _ => true,
    removeValid := fun _ _ _ => true }

/-- A concrete user. -/
def alice : User := { id := 1, username := "alice" }

/-- A base request fixture. -/
def baseReq : Request :=
  { method := .get, user := none, session_2fa_user_id := none, token := "123456",
    full_path := "/accounts/two-factor/setup", site_name := "Example Site",
    login_redirect_url := "/accounts/profile/" }

/-- A concrete unconfirmed device for `alice` (its key is the bytes of
the word Hello). -/
def aliceDevice : TOTPDevice :=
  { id := 5, user_id := 1, confirmed := false, bin_key := [72, 101, 108, 108, 111], digits := 6 }

/-- A database with one user and no devices. -/
def db0 : DB :=
  { users := [alice], totpDevices := [], staticDevices := [], nextId := 10, other := 7 }

/-- A database with one unconfirmed device for `alice`. -/
def dbUnconfirmed : DB := { db0 with totpDevices := [aliceDevice] }

/-- A database with one confirmed device for `alice`. -/
def dbConfirmed : DB := { db0 with totpDevices := [{ aliceDevice with confirmed := true }] }

/-! ## Sanity checks of the encoding embedding -/

example : b32encode [0] = "AA======" := by decide
example : b32encode [102, 111, 111, 98, 97, 114] = "MZXW6YTBOI======" := by decide
example : b32encode [102, 111, 111, 98, 97] = "MZXW6YTB" := by decide
example : quote "Example Site: alice" = "Example%20Site%3A%20alice" := by decide
example : quote_plus "Example Site" = "Example+Site" := by decide
example : urlencode [("secret", "ABC"), ("digits", "6"), ("issuer", "a b")] =
    "secret=ABC&digits=6&issuer=a+b" := by decide

/-! ## Claim C1 -/

/-- Claim C1: for every authenticated GET to the QR-code view by a user with
an unconfirmed TOTP device, the enrollment URI is
`otpauth://totp/{issuer}: {username}?secret=...&digits=...&issuer=...`: the
label is the (URL-quoted) `{issuer}: {username}`, and the query string
carries the device's base32-encoded secret, its digits setting and the
issuer, in that order. -/
theorem qr_view_otpauth_uri_format (req : Request) (db : DB) (u : User) (d : TOTPDevice)
    (hm : req.method = .get) (hu : req.user = some u)
    (hd : totpFirstUnconfirmed db u.id = some d) :
    QRCodeGeneratorView req db =
      { response := .ok (.svgQr
          ("otpauth://totp/" ++ quote (req.site_name ++ ": " ++ u.username) ++ "?" ++
            ("secret=" ++ quote_plus (b32encode d.bin_key) ++ "&" ++
              ("digits=" ++ quote_plus (toString d.digits) ++ "&" ++
                ("issuer=" ++ quote_plus req.site_name))))),
        db := db, loggedIn := none } := by
  simp only [QRCodeGeneratorView, hm, hu, hd]
  rfl

/-- Witness for C1 at a concrete request and database. -/
theorem qr_view_otpauth_uri_format_witness :
    QRCodeGeneratorView { baseReq with user := some alice } dbUnconfirmed =
      { response := .ok (.svgQr
          ("otpauth://totp/" ++
            quote (({ baseReq with user := some alice } : Request).site_name ++ ": " ++
              alice.username) ++ "?" ++
            ("secret=" ++ quote_plus (b32encode aliceDevice.bin_key) ++ "&" ++
              ("digits=" ++ quote_plus (toString aliceDevice.digits) ++ "&" ++
                ("issuer=" ++ quote_plus ({ baseReq with user := some alice } : Request).site_name))))),
        db := dbUnconfirmed, loggedIn := none } :=
  qr_view_otpauth_uri_format { baseReq with user := some alice } dbUnconfirmed alice aliceDevice
    rfl rfl (by decide)

/-! ## Claim C2 -/

/-- Claim C2 names a code bug.  The specification's error-handling design is
that a missing device raises a not-found response, but the view raises
`Http404` only for anonymous users: on a GET by an authenticated user with no
unconfirmed TOTP device, `filter(confirmed=False).first()` returns `None` and
`device.bin_key` dereferences it, raising an attribute error instead of
`Http404`.  This theorem evaluates the view at the failing input — `alice`
authenticated, holding no unconfirmed device. -/
theorem qr_view_missing_device_attribute_error :
    totpFirstUnconfirmed db0 alice.id = none ∧
    (QRCodeGeneratorView { baseReq with user := some alice } db0).response =
      .error .noneAttrError ∧
    (QRCodeGeneratorView { baseReq with user := some alice } db0).response ≠
      .error .http404 := by
  decide

/-- The error behavior of the QR-code view as implemented: on a GET, an
anonymous user gets `Http404`, while an authenticated user with no unconfirmed
TOTP device hits an attribute error on the missing (`None`) device. -/
theorem qr_view_error_behavior (req : Request) (db : DB) (hm : req.method = .get) :
    (req.user = none →
      QRCodeGeneratorView req db =
        { response := .error .http404, db := db, loggedIn := none }) ∧
    (∀ u, req.user = some u → totpFirstUnconfirmed db u.id = none →
      QRCodeGeneratorView req db =
        { response := .error .noneAttrError, db := db, loggedIn := none }) := by
  constructor
  · intro h
    simp only [QRCodeGeneratorView, hm, h]
  · intro u hu hd
    simp only [QRCodeGeneratorView, hm, hu, hd]

/-- The anonymous branch of the QR-code view's error behavior at a concrete
request. -/
theorem qr_view_error_behavior_witness :
    QRCodeGeneratorView baseReq db0 =
      { response := .error .http404, db := db0, loggedIn := none } :=
  (qr_view_error_behavior baseReq db0 rfl).1 rfl

/-! ## Claim C3 -/

/-- Claim C3: on a POST to the setup view whose confirmation code fails
validation, the view regenerates the unconfirmed device before re-rendering
the form: the resulting database is `new_device`, which deletes every
unconfirmed TOTP device of the user and creates exactly one new unconfirmed
one. -/
theorem setup_invalid_regenerates_device (fs : Forms) (req : Request) (db : DB) (u : User)
    (hu : req.user = some u) (hnc : totpConfirmedExists db u.id = false)
    (hm : req.method = .post) (hv : fs.setupValid db u.id req.token = false) :
    TwoFactorSetup fs req db =
      { response := .ok (.formPage "allauth_2fa/setup.html"), db := new_device db u.id,
        loggedIn := none } ∧
    (new_device db u.id).totpDevices =
      db.totpDevices.filter (fun d => !(d.user_id == u.id && !d.confirmed)) ++
        [freshTotpDevice db.nextId u.id] := by
  constructor
  · simp only [TwoFactorSetup, hu, hnc, hm, hv]
    rfl
  · rfl

/-- Witness for C3: a wrong code posted by `alice`, who holds one unconfirmed
device. -/
theorem setup_invalid_regenerates_device_witness :
    TwoFactorSetup fsInvalid { baseReq with user := some alice, method := .post } dbUnconfirmed =
      { response := .ok (.formPage "allauth_2fa/setup.html"),
        db := new_device dbUnconfirmed alice.id, loggedIn := none } ∧
    (new_device dbUnconfirmed alice.id).totpDevices =
      dbUnconfirmed.totpDevices.filter (fun d => !(d.user_id == alice.id && !d.confirmed)) ++
        [freshTotpDevice dbUnconfirmed.nextId alice.id] :=
  setup_invalid_regenerates_device fsInvalid
    { baseReq with user := some alice, method := .post } dbUnconfirmed alice
    rfl (by decide) rfl rfl

/-! ## Claim C4 -/

/-- Claim C4: an anonymous request to the setup view is answered with a
redirect to the login page; the database is returned unchanged, and the
response does not depend on it (so no device state of any user is read or
written). -/
theorem setup_anonymous_redirects_to_login (fs : Forms) (req : Request) (db : DB)
    (h : req.user = none) :
    TwoFactorSetup fs req db =
      { response := .ok (.redirectToLogin req.full_path), db := db, loggedIn := none } := by
  simp only [TwoFactorSetup, h]

/-- Witness for C4 at a concrete anonymous request. -/
theorem setup_anonymous_redirects_to_login_witness :
    TwoFactorSetup fsValid baseReq dbConfirmed =
      { response := .ok (.redirectToLogin baseReq.full_path), db := dbConfirmed,
        loggedIn := none } :=
  setup_anonymous_redirects_to_login fsValid baseReq dbConfirmed rfl

/-! ## Claim C5 -/

/-- Claim C5: a request to the two-factor authenticate view whose session does
not hold `allauth_2fa_user_id` is redirected to the login page with nothing
verified, no login performed and no state changed; and whenever the view does
complete a login, the logged-in user is exactly the one recorded in the
session and the second factor was verified for that user, with the response
redirecting onward. -/
theorem authenticate_requires_paused_login (fs : Forms) (req : Request) (db : DB) :
    (req.session_2fa_user_id = none →
      TwoFactorAuthenticate fs req db =
        { response := .ok (.redirect "account_login"), db := db, loggedIn := none }) ∧
    (∀ uid, (TwoFactorAuthenticate fs req db).loggedIn = some uid →
      req.session_2fa_user_id = some uid ∧ fs.authValid db uid req.token = true ∧
      (TwoFactorAuthenticate fs req db).response = .ok (.redirect req.login_redirect_url)) := by
  constructor
  · intro h
    simp only [TwoFactorAuthenticate, h]
  · intro uid h
    cases hs : req.session_2fa_user_id with
    | none => simp [TwoFactorAuthenticate, hs] at h
    | some sid =>
      cases hg : userGet db sid with
      | none => simp [TwoFactorAuthenticate, hs, hg] at h
      | some u =>
        have hid : u.id = sid := by
          have := List.find?_some hg
          simpa using this
        cases hmeth : req.method with
        | get => simp [TwoFactorAuthenticate, hs, hg, hmeth] at h
        | post =>
          by_cases hv : fs.authValid db u.id req.token = true
          · have huid : u.id = uid := by
              simp [TwoFactorAuthenticate, hs, hg, hmeth, hv] at h
              exact h
            refine ⟨?_, ?_, ?_⟩
            · rw [← huid, hid]
            · rw [← huid]; exact hv
            · simp [TwoFactorAuthenticate, hs, hg, hmeth, hv]
          · simp [TwoFactorAuthenticate, hs, hg, hmeth, hv] at h

/-- Witness for C5: a concrete request with no paused login in the session. -/
theorem authenticate_requires_paused_login_witness :
    TwoFactorAuthenticate fsValid baseReq db0 =
      { response := .ok (.redirect "account_login"), db := db0, loggedIn := none } :=
  (authenticate_requires_paused_login fsValid baseReq db0).1 rfl

/-! ## Claim C6 -/

/-- Claim C6: a form submission failing validation (wrong TOTP code on the
setup or the authenticate view) re-renders the same form and is never a
redirect. -/
theorem invalid_code_rerenders_form (fs : Forms) (req : Request) (db : DB) :
    (∀ u, req.user = some u → req.method = .post → totpConfirmedExists db u.id = false →
      fs.setupValid db u.id req.token = false →
      ((TwoFactorSetup fs req db).response = .ok (.formPage "allauth_2fa/setup.html") ∧
        ∀ url, (TwoFactorSetup fs req db).response ≠ .ok (.redirect url))) ∧
    (∀ uid u, req.session_2fa_user_id = some uid → userGet db uid = some u →
      req.method = .post → fs.authValid db u.id req.token = false →
      ((TwoFactorAuthenticate fs req db).response = .ok (.formPage "allauth_2fa/authenticate.html") ∧
        ∀ url, (TwoFactorAuthenticate fs req db).response ≠ .ok (.redirect url))) := by
  constructor
  · intro u hu hm hnc hv
    have hr : (TwoFactorSetup fs req db).response = .ok (.formPage "allauth_2fa/setup.html") := by
      simp only [TwoFactorSetup, hu, hnc, hm, hv]
      rfl
    exact ⟨hr, fun url => by rw [hr]; simp⟩
  · intro uid u hs hg hm hv
    have hr : (TwoFactorAuthenticate fs req db).response =
        .ok (.formPage "allauth_2fa/authenticate.html") := by
      simp only [TwoFactorAuthenticate, hs, hg, hm, hv]
      rfl
    exact ⟨hr, fun url => by rw [hr]; simp⟩

/-- Witness for C6: a wrong setup code posted by `alice`. -/
theorem invalid_code_rerenders_form_witness :
    (TwoFactorSetup fsInvalid { baseReq with user := some alice, method := .post }
        dbUnconfirmed).response = .ok (.formPage "allauth_2fa/setup.html") ∧
    ∀ url, (TwoFactorSetup fsInvalid { baseReq with user := some alice, method := .post }
        dbUnconfirmed).response ≠ .ok (.redirect url) :=
  (invalid_code_rerenders_form fsInvalid { baseReq with user := some alice, method := .post }
      dbUnconfirmed).1 alice rfl rfl (by decide) rfl

/-! ## Helper lemmas on the static-device operations -/

/-- Searching with `find?` through a map that rewrites only the token set of the matching
devices: the found device is found again with its token set rewritten. -/
theorem find?_map_update_tokens (p : StaticDevice → Bool) (g : List String → List String)
    (l : List StaticDevice) (s : StaticDevice) (h : l.find? p = some s)
    (hp : ∀ x : StaticDevice, p { x with token_set := g x.token_set } = p x) :
    (l.map (fun x => if p x then { x with token_set := g x.token_set } else x)).find? p =
      some { s with token_set := g s.token_set } := by
  have hps := List.find?_some h
  rw [List.find?_map]
  have hcomp : (p ∘ fun x => if p x then { x with token_set := g x.token_set } else x) = p := by
    funext x
    by_cases hx : p x = true <;> simp [Function.comp, hx, hp]
  rw [hcomp, h]
  simp [hps]

/-- After `get_or_create`, a matching device is present, the fresh-value
source is untouched, and the returned device is the found one. -/
theorem staticGetOrCreate_found (db : DB) (uid : Nat) (nm : String) :
    ∃ s : StaticDevice,
      ((staticGetOrCreate db uid nm).2).staticDevices.find?
          (fun x => x.user_id == uid && x.name == nm) = some s ∧
      ((staticGetOrCreate db uid nm).2).nextId = db.nextId := by
  unfold staticGetOrCreate
  cases h : db.staticDevices.find? (fun x => x.user_id == uid && x.name == nm) with
  | some s => exact ⟨s, by simp [h], rfl⟩
  | none =>
    refine ⟨{ user_id := uid, name := nm, token_set := [] }, ?_, rfl⟩
    rw [List.find?_append, h]
    simp

/-- Calling `get_or_create` on a database already holding a matching device returns
that device and leaves the database unchanged. -/
theorem staticGetOrCreate_of_found (db : DB) (uid : Nat) (nm : String) (s : StaticDevice)
    (h : db.staticDevices.find? (fun x => x.user_id == uid && x.name == nm) = some s) :
    staticGetOrCreate db uid nm = (s, db) := by
  unfold staticGetOrCreate
  rw [h]

/-- Deleting all tokens of the matching device: the device is found again
with an empty token set; the fresh-value source is untouched. -/
theorem staticTokenDeleteAll_found (db : DB) (uid : Nat) (nm : String) (s : StaticDevice)
    (h : db.staticDevices.find? (fun x => x.user_id == uid && x.name == nm) = some s) :
    (staticTokenDeleteAll db uid nm).staticDevices.find?
        (fun x => x.user_id == uid && x.name == nm) = some { s with token_set := [] } ∧
    (staticTokenDeleteAll db uid nm).nextId = db.nextId := by
  refine ⟨?_, rfl⟩
  exact find?_map_update_tokens _ (fun _ => []) _ s h (fun _ => rfl)

/-- Creating one token on the matching device: the device is found again with
the fresh token appended; the fresh-value source advances by one. -/
theorem staticTokenCreate_found (db : DB) (uid : Nat) (nm : String) (s : StaticDevice)
    (h : db.staticDevices.find? (fun x => x.user_id == uid && x.name == nm) = some s) :
    (staticTokenCreate db uid nm).staticDevices.find?
        (fun x => x.user_id == uid && x.name == nm) =
      some { s with token_set := s.token_set ++ [randomToken db.nextId] } ∧
    (staticTokenCreate db uid nm).nextId = db.nextId + 1 := by
  refine ⟨?_, rfl⟩
  exact find?_map_update_tokens _ (fun ts => ts ++ [randomToken db.nextId]) _ s h (fun _ => rfl)

/-! ## Claim C8 -/

/-- Claim C8: a POST by an authenticated user to the backup-tokens view
deletes all previous tokens of the `backup` static device and creates exactly
three fresh ones: afterwards the device holds exactly the three new tokens,
whatever it held before, and the page shows them. -/
theorem backup_post_exactly_three_tokens (req : Request) (db : DB) (u : User)
    (hu : req.user = some u) (hm : req.method = .post) :
    backupTokensOf (TwoFactorBackupTokens req db).db u.id =
      [randomToken db.nextId, randomToken (db.nextId + 1), randomToken (db.nextId + 2)] ∧
    (backupTokensOf (TwoFactorBackupTokens req db).db u.id).length = 3 ∧
    (TwoFactorBackupTokens req db).response =
      .ok (.backupPage [randomToken db.nextId, randomToken (db.nextId + 1),
        randomToken (db.nextId + 2)]) := by
  obtain ⟨s1, hf1, hn1⟩ := staticGetOrCreate_found db u.id "backup"
  obtain ⟨hf2, hn2⟩ := staticTokenDeleteAll_found _ u.id "backup" s1 hf1
  rw [hn1] at hn2
  obtain ⟨hf3, hn3⟩ := staticTokenCreate_found _ u.id "backup" _ hf2
  rw [hn2] at hf3 hn3
  obtain ⟨hf4, hn4⟩ := staticTokenCreate_found _ u.id "backup" _ hf3
  rw [hn3] at hf4 hn4
  obtain ⟨hf5, -⟩ := staticTokenCreate_found _ u.id "backup" _ hf4
  rw [hn4] at hf5
  have hadd : db.nextId + 1 + 1 = db.nextId + 2 := by omega
  simp only [List.nil_append, List.singleton_append, List.cons_append, hadd] at hf5
  have hlast := staticGetOrCreate_of_found _ u.id "backup" _ hf5
  simp only [TwoFactorBackupTokens, hu, hm, hlast]
  refine ⟨?_, ?_, ?_⟩ <;> simp [backupTokensOf, hf5]

/-- Witness for C8: `alice` posts to the backup-tokens view on a database
with no static device yet. -/
theorem backup_post_exactly_three_tokens_witness :
    backupTokensOf
        (TwoFactorBackupTokens { baseReq with user := some alice, method := .post } db0).db
        alice.id =
      [randomToken db0.nextId, randomToken (db0.nextId + 1), randomToken (db0.nextId + 2)] ∧
    (backupTokensOf
        (TwoFactorBackupTokens { baseReq with user := some alice, method := .post } db0).db
        alice.id).length = 3 ∧
    (TwoFactorBackupTokens { baseReq with user := some alice, method := .post } db0).response =
      .ok (.backupPage [randomToken db0.nextId, randomToken (db0.nextId + 1),
        randomToken (db0.nextId + 2)]) :=
  backup_post_exactly_three_tokens { baseReq with user := some alice, method := .post } db0
    alice rfl rfl

/-! ## Claim C9 -/

/-- A confirmed device survives `_new_device` (only unconfirmed devices are
deleted, and a device is appended). -/
theorem mem_new_device_of_confirmed (db : DB) (uid : Nat) (d : TOTPDevice)
    (hd : d ∈ db.totpDevices) (hc : d.confirmed = true) :
    d ∈ (new_device db uid).totpDevices := by
  unfold new_device totpCreateUnconfirmed totpUnconfirmedDelete
  refine List.mem_append_left _ ?_
  exact List.mem_filter.mpr ⟨hd, by simp [hc]⟩

/-- A confirmed device survives the device-confirmation save unchanged. -/
theorem mem_form_save_of_confirmed (db : DB) (uid : Nat) (d : TOTPDevice)
    (hd : d ∈ db.totpDevices) (hc : d.confirmed = true) :
    d ∈ (TOTPDeviceForm_save db uid).totpDevices := by
  unfold TOTPDeviceForm_save
  refine List.mem_map.mpr ⟨d, hd, ?_⟩
  simp [hc]

/-- Claim C9: no request to the setup view deletes or modifies a confirmed
TOTP device — every confirmed device row survives untouched — and a user who
already has a confirmed device is redirected to the backup-tokens page with
the database unchanged, before any device-creating or -deleting handler
runs. -/
theorem setup_never_touches_confirmed_devices (fs : Forms) (req : Request) (db : DB) :
    (∀ d, d ∈ db.totpDevices → d.confirmed = true →
      d ∈ (TwoFactorSetup fs req db).db.totpDevices) ∧
    (∀ u, req.user = some u → totpConfirmedExists db u.id = true →
      TwoFactorSetup fs req db =
        { response := .ok (.redirect "two-factor-backup-tokens"), db := db,
          loggedIn := none }) := by
  constructor
  · intro d hd hc
    cases hu : req.user with
    | none => simpa [TwoFactorSetup, hu] using hd
    | some u =>
      by_cases hcx : totpConfirmedExists db u.id = true
      · simpa [TwoFactorSetup, hu, hcx] using hd
      · cases hm : req.method with
        | get =>
          simp only [TwoFactorSetup, hu, hcx, hm, if_false]
          exact mem_new_device_of_confirmed db u.id d hd hc
        | post =>
          by_cases hv : fs.setupValid db u.id req.token = true
          · simp only [TwoFactorSetup, hu, hcx, hm, hv, if_true, if_false]
            exact mem_form_save_of_confirmed db u.id d hd hc
          · simp only [TwoFactorSetup, hu, hcx, hm, hv, if_false]
            exact mem_new_device_of_confirmed db u.id d hd hc
  · intro u hu hcx
    simp only [TwoFactorSetup, hu, hcx, if_true]

/-- Witness for C9: `alice` already has a confirmed device and is redirected
with the database unchanged. -/
theorem setup_never_touches_confirmed_devices_witness :
    TwoFactorSetup fsValid { baseReq with user := some alice } dbConfirmed =
      { response := .ok (.redirect "two-factor-backup-tokens"), db := dbConfirmed,
        loggedIn := none } :=
  (setup_never_touches_confirmed_devices fsValid { baseReq with user := some alice }
      dbConfirmed).2 alice rfl (by decide)

/-! ## Claim C10 -/

/-- Filtering with a predicate after keeping only its complement yields
nothing. -/
theorem filter_not_filter {α : Type} (p : α → Bool) (l : List α) :
    (l.filter (fun a => !(p a))).filter p = [] := by
  induction l with
  | nil => rfl
  | cons a t ih => by_cases h : p a = true <;> simp [List.filter_cons, h, ih]

/-- Claim C10: after a GET to the setup view by an authenticated user with no
confirmed device, the database is `_new_device`'s result and the user holds
exactly one unconfirmed TOTP device — the freshly created one — however many
unconfirmed devices existed before. -/
theorem setup_get_single_unconfirmed_device (fs : Forms) (req : Request) (db : DB) (u : User)
    (hu : req.user = some u) (hnc : totpConfirmedExists db u.id = false)
    (hm : req.method = .get) :
    (TwoFactorSetup fs req db).db = new_device db u.id ∧
    (TwoFactorSetup fs req db).db.totpDevices.filter
        (fun d => d.user_id == u.id && !d.confirmed) = [freshTotpDevice db.nextId u.id] ∧
    ((TwoFactorSetup fs req db).db.totpDevices.filter
        (fun d => d.user_id == u.id && !d.confirmed)).length = 1 := by
  have hdb : (TwoFactorSetup fs req db).db = new_device db u.id := by
    simp [TwoFactorSetup, hu, hnc, hm]
  have hfil : (new_device db u.id).totpDevices.filter
      (fun d => d.user_id == u.id && !d.confirmed) = [freshTotpDevice db.nextId u.id] := by
    unfold new_device totpCreateUnconfirmed totpUnconfirmedDelete
    rw [List.filter_append,
      filter_not_filter (fun d : TOTPDevice => d.user_id == u.id && !d.confirmed)]
    simp [freshTotpDevice]
  refine ⟨hdb, ?_, ?_⟩ <;> rw [hdb, hfil]
  rfl

/-- Witness for C10: `alice` GETs the setup page while holding one stale
unconfirmed device. -/
theorem setup_get_single_unconfirmed_device_witness :
    (TwoFactorSetup fsInvalid { baseReq with user := some alice } dbUnconfirmed).db =
      new_device dbUnconfirmed alice.id ∧
    (TwoFactorSetup fsInvalid { baseReq with user := some alice } dbUnconfirmed).db.totpDevices.filter
        (fun d => d.user_id == alice.id && !d.confirmed) =
      [freshTotpDevice dbUnconfirmed.nextId alice.id] ∧
    ((TwoFactorSetup fsInvalid { baseReq with user := some alice } dbUnconfirmed).db.totpDevices.filter
        (fun d => d.user_id == alice.id && !d.confirmed)).length = 1 :=
  setup_get_single_unconfirmed_device fsInvalid { baseReq with user := some alice }
    dbUnconfirmed alice rfl (by decide) rfl

/-! ## Claim C7 -/

/-- Every plugin operation leaves the non-OTP state (`other`) and the user
table untouched. -/
theorem otpOp_apply_frame (op : OTPOp) (db : DB) :
    (op.apply db).other = db.other ∧ (op.apply db).users = db.users := by
  cases op with
  | staticGetOrCreateOp uid nm =>
    have hr : OTPOp.apply (.staticGetOrCreateOp uid nm) db = (staticGetOrCreate db uid nm).2 :=
      rfl
    rw [hr]
    unfold staticGetOrCreate
    cases h : List.find? (fun s => s.user_id == uid && s.name == nm) db.staticDevices with
    | some s => exact ⟨rfl, rfl⟩
    | none => exact ⟨rfl, rfl⟩
  | totpCreate uid => exact ⟨rfl, rfl⟩
  | totpDeleteUnconfirmed uid => exact ⟨rfl, rfl⟩
  | totpDeleteAll uid => exact ⟨rfl, rfl⟩
  | totpConfirm uid => exact ⟨rfl, rfl⟩
  | tokenDeleteAll uid nm => exact ⟨rfl, rfl⟩
  | tokenCreate uid nm => exact ⟨rfl, rfl⟩

/-- A sequence of plugin operations leaves the non-OTP state and the user
table untouched. -/
theorem applyOps_frame (ops : List OTPOp) (db : DB) :
    (applyOps ops db).other = db.other ∧ (applyOps ops db).users = db.users := by
  induction ops generalizing db with
  | nil => exact ⟨rfl, rfl⟩
  | cons op t ih =>
    obtain ⟨h1, h2⟩ := ih (op.apply db)
    obtain ⟨g1, g2⟩ := otpOp_apply_frame op db
    exact ⟨h1.trans g1, h2.trans g2⟩

/-- The authenticate view never writes the database. -/
theorem authenticate_db_unchanged (fs : Forms) (req : Request) (db : DB) :
    (TwoFactorAuthenticate fs req db).db = db := by
  unfold TwoFactorAuthenticate
  repeat' split
  all_goals rfl

/-- The QR-code view never writes the database. -/
theorem qr_db_unchanged (req : Request) (db : DB) :
    (QRCodeGeneratorView req db).db = db := by
  unfold QRCodeGeneratorView
  repeat' split
  all_goals rfl

/-- Claim C7: every mutation of persisted one-time-password state any view
performs factors into a sequence of the plugin's public operations on its
device/token models (create, filtered delete, get-or-create, and the
device-confirmation save delegated to the form); in particular no view writes
any other entity type (`other`) or the user table. -/
theorem views_mutate_only_plugin_state (fs : Forms) (v : View) (req : Request) (db : DB) :
    ∃ ops : List OTPOp, (handle fs v req db).db = applyOps ops db ∧
      (handle fs v req db).db.other = db.other ∧
      (handle fs v req db).db.users = db.users := by
  suffices h : ∃ ops : List OTPOp, (handle fs v req db).db = applyOps ops db by
    obtain ⟨ops, hops⟩ := h
    exact ⟨ops, hops, by rw [hops]; exact (applyOps_frame ops db).1,
      by rw [hops]; exact (applyOps_frame ops db).2⟩
  cases v with
  | authenticate => exact ⟨[], by rw [handle, authenticate_db_unchanged]; rfl⟩
  | qrCode => exact ⟨[], by rw [handle, qr_db_unchanged]; rfl⟩
  | setup =>
    simp only [handle]
    unfold TwoFactorSetup
    split
    · exact ⟨[], rfl⟩
    · rename_i u h
      split
      · exact ⟨[], rfl⟩
      · split
        · exact ⟨[.totpDeleteUnconfirmed u.id, .totpCreate u.id], rfl⟩
        · split
          · exact ⟨[.totpConfirm u.id], rfl⟩
          · exact ⟨[.totpDeleteUnconfirmed u.id, .totpCreate u.id], rfl⟩
  | remove =>
    simp only [handle]
    unfold TwoFactorRemove
    split
    · exact ⟨[], rfl⟩
    · rename_i u h
      split
      · split
        · exact ⟨[], rfl⟩
        · split
          · exact ⟨[.totpDeleteAll u.id], rfl⟩
          · exact ⟨[], rfl⟩
      · exact ⟨[], rfl⟩
  | backupTokens =>
    simp only [handle]
    unfold TwoFactorBackupTokens
    split
    · exact ⟨[], rfl⟩
    · rename_i u h
      split
      · exact ⟨[.staticGetOrCreateOp u.id "backup"], rfl⟩
      · exact ⟨[.staticGetOrCreateOp u.id "backup", .tokenDeleteAll u.id "backup",
          .tokenCreate u.id "backup", .tokenCreate u.id "backup", .tokenCreate u.id "backup",
          .staticGetOrCreateOp u.id "backup"], rfl⟩

end Allauth2FA
